import Mathlib

/-
  Verification development for the Exmplr conversational agent
  (src/exmplragent_app.py).

  The Python app keeps a persistent dict `st.session_state["params"]`
  (the Filter Parameter Set), cleans extractor output with `clean_params`,
  merges it with `dict.update`, posts it to a search endpoint, and renders
  the first five hits of the response.  We embed the JSON values, the
  dict operations, the string normalizer and the per-turn control flow
  below, and prove the spec's claims about them.
-/

set_option autoImplicit false

namespace Exmplr

/-- JSON-like values, as produced by `json.loads` and consumed by the app.
Numbers are modelled as integers (the app only handles integral fields). -/
inductive Json where
  | null : Json
  | str : String → Json
  | num : Int → Json
  | bool : Bool → Json
  | arr : List Json → Json
  | obj : List (String × Json) → Json

mutual

/-- Python `str()` display of a value, as interpolated into f-strings.
Only the `str`, `num` and `bool` cases are exercised by the claims. -/
def Json.display : Json → String
  | Json.null => "None"
  | Json.str s => s
  | Json.num n => toString n
  | Json.bool b => if b then "True" else "False"
  | Json.arr xs => "[" ++ displayList xs ++ "]"
  | Json.obj fs => "\x7b" ++ displayFields fs ++ "\x7d"

/-- Display of the elements of a JSON array, comma separated. -/
def displayList : List Json → String
  | [] => ""
  | [x] => Json.display x
  | x :: y :: xs => Json.display x ++ ", " ++ displayList (y :: xs)

/-- Display of the fields of a JSON object, comma separated. -/
def displayFields : List (String × Json) → String
  | [] => ""
  | [(k, v)] => k ++ ": " ++ Json.display v
  | (k, v) :: q :: fs => k ++ ": " ++ Json.display v ++ ", " ++ displayFields (q :: fs)

end

/-- Python truthiness (`if trials:`): empty string, zero, `False`, `None`,
empty list and empty dict are falsy. -/
def Json.truthy : Json → Bool
  | Json.null => false
  | Json.str s => !(s == "")
  | Json.num n => !(n == 0)
  | Json.bool b => b
  | Json.arr xs => !xs.isEmpty
  | Json.obj fs => !fs.isEmpty

/-- Python `d[k]` on a dict: the value at `k`, or a raised `KeyError`;
indexing a non-dict raises a `TypeError`. -/
def Json.index (j : Json) (k : String) : Except String Json :=
  match j with
  | Json.obj fs =>
    match fs.find? (fun p => p.1 = k) with
    | some p => Except.ok p.2
    | none => Except.error ("KeyError: " ++ k)
  | _ => Except.error "TypeError: value is not subscriptable"

/-- Python `d.get(k, default)` on a dict; calling `.get` on a non-dict
raises an `AttributeError`. -/
def Json.getE (j : Json) (k : String) (d : Json) : Except String Json :=
  match j with
  | Json.obj fs =>
    Except.ok (match fs.find? (fun p => p.1 = k) with
      | some p => p.2
      | none => d)
  | _ => Except.error "AttributeError: value has no attribute get"

/-- Python `str.lower()` (ASCII range, which is all the app compares). -/
def pyLower (s : String) : String :=
  String.mk (s.data.map Char.toLower)

/-- Python `str.capitalize()`: first character uppercased, every other
character lowercased. -/
def pyCapitalize (s : String) : String :=
  match s.data with
  | [] => ""
  | c :: cs => String.mk (Char.toUpper c :: cs.map Char.toLower)

/-- Helper for Python `str.title()`: walks the characters remembering
whether the previous character was alphabetic; a letter starting a word is
uppercased, a letter inside a word is lowercased, other characters pass. -/
def pyTitleAux : Bool → List Char → List Char
  | _, [] => []
  | prevAlpha, c :: cs =>
    if c.isAlpha then
      (if prevAlpha then Char.toLower c else Char.toUpper c) :: pyTitleAux true cs
    else
      c :: pyTitleAux false cs

/-- Python `str.title()`: first letter of each word uppercased, the rest of
each word lowercased. -/
def pyTitle (s : String) : String :=
  String.mk (pyTitleAux false s.data)

/-- The per-entry transformation of `clean_params` (lines 78-86): empty
strings become null; a string under the `location` key equal (ignoring
case) to "us" or "united states" becomes the literal "United States" and
any other location string is title-cased; every other string is
capitalized; non-strings pass through unchanged. -/
def cleanValue (key : String) (v : Json) : Json :=
  match v with
  | Json.str s =>
    if s = "" then Json.null
    else if key = "location" then
      (if pyLower s = "us" ∨ pyLower s = "united states" then Json.str "United States"
       else Json.str (pyTitle s))
    else Json.str (pyCapitalize s)
  | v => v

/-- A parameter dict: association list with the keys in insertion order
(Python dicts preserve insertion order and, coming from `json.loads` or the
literal initializer, have no duplicate keys). -/
def Params : Type := List (String × Json)

/-- Python `d[k] = v`: replace the value at the first occurrence of `k`,
or append `(k, v)` when `k` is absent. -/
def dictSet : List (String × Json) → String → Json → List (String × Json)
  | [], k, v => [(k, v)]
  | p :: ps, k, v => if p.1 = k then (k, v) :: ps else p :: dictSet ps k v

/-- Python `d.update(c)`: set every key of `c` in `d`, in order. -/
def dictUpdate (d c : List (String × Json)) : List (String × Json) :=
  c.foldl (fun acc p => dictSet acc p.1 p.2) d

/-- Python `d.get(k)` as a lookup: the value at `k`, when present. -/
def dictGet (d : List (String × Json)) (k : String) : Option Json :=
  (d.find? (fun p => p.1 = k)).map Prod.snd

/-- The key list of a dict. -/
def keys (d : List (String × Json)) : List String :=
  d.map Prod.fst

/-- Function `clean_params` (lines 78-86): the in-place loop rewriting each
value of the dict with `cleanValue`. -/
def clean_params (params : List (String × Json)) : List (String × Json) :=
  params.map (fun p => (p.1, cleanValue p.1 p.2))

/-- The merge of one extractor response into the Filter Parameter Set
(lines 168-170): `st.session_state["params"].update(clean_params(extracted_params))`. -/
def mergeParams (params cand : List (String × Json)) : List (String × Json) :=
  dictUpdate params (clean_params cand)

/-- The initial Filter Parameter Set (lines 34-41). -/
def defaultParams : List (String × Json) :=
  [("search_query", Json.null), ("size", Json.num 10), ("from", Json.num 0),
   ("paged_request", Json.bool true), ("age_from", Json.str "0"), ("age_to", Json.str "100"),
   ("gender", Json.str "All"), ("race", Json.null), ("ethnicity", Json.null),
   ("intervention_type", Json.null), ("study", Json.null), ("location", Json.null),
   ("study_posted_from_year", Json.null), ("study_posted_to_year", Json.null),
   ("allocation", Json.null), ("sponsor_type", Json.null), ("sponsor", Json.null),
   ("show_only_results", Json.null), ("searched_for_condition_intervention", Json.null),
   ("intervention", Json.null), ("weight_scheme", Json.str "reference_citations"),
   ("exclusion_crit_text", Json.null), ("phase", Json.null), ("status_of_study", Json.null)]

/-- The fixed declared key set of the data model. -/
def declaredKeys : List String :=
  keys defaultParams

/-- A chat message of the session transcript. -/
structure Message where
  role : String
  content : String

/-- The session state the turn logic touches: the transcript and the
persistent Filter Parameter Set. -/
structure AgentState where
  messages : List Message
  params : List (String × Json)

/-- A search-endpoint reply: HTTP status, parsed JSON body, raw text. -/
structure ApiResponse where
  status : Nat
  body : Json
  text : String

/-- Observable actions of one turn, in order: the OpenAI extractor call,
the POST to the search endpoint (with its payload), and the Streamlit
outputs (`st.error`, `st.warning`, `st.write` of the params, chat bubbles). -/
inductive Event where
  | extractorRequest : Event
  | searchRequest : List (String × Json) → Event
  | errorShown : String → Event
  | warningShown : String → Event
  | logShown : List (String × Json) → Event
  | chatShown : String → Event

/-- Rendering of the `_source` fields of one hit (lines 184-188 and
121-125): direct indexing of `brief_title` and `overall_status` (a
missing key raises), defensive `.get` with an "N/A" default for `phase`
and for `lead_sponsor.agency`; evaluation order follows the f-string. -/
def renderSource (src : Json) : Except String String :=
  match Json.index src "brief_title" with
  | Except.error e => Except.error e
  | Except.ok title =>
    match Json.index src "overall_status" with
    | Except.error e => Except.error e
    | Except.ok status =>
      match Json.getE src "phase" (Json.str "N/A") with
      | Except.error e => Except.error e
      | Except.ok phase =>
        match Json.getE src "lead_sponsor" (Json.obj []) with
        | Except.error e => Except.error e
        | Except.ok sponsorObj =>
          match Json.getE sponsorObj "agency" (Json.str "N/A") with
          | Except.error e => Except.error e
          | Except.ok agency =>
            Except.ok ("**" ++ Json.display title ++ "**\n" ++
              "Status: " ++ Json.display status ++ ", Phase: " ++ Json.display phase ++
              ", Sponsor: " ++ Json.display agency ++ "\n\n")

/-- Rendering of one hit: index `_source` directly (raising on a non-dict
or missing key), then render its fields. -/
def renderTrial (trial : Json) : Except String String :=
  match Json.index trial "_source" with
  | Except.error e => Except.error e
  | Except.ok src => renderSource src

/-- One iteration of the trial-list loop: `trial_list += (...)`, the
appended piece coming from `renderTrial`. -/
def renderStep (acc : String) (t : Json) : Except String String := do
  let line ← renderTrial t
  pure (acc ++ line)

/-- Body processing of a status-200 reply (lines 178-188 and 115-125):
extract `hits.hits`; when falsy, report no studies (`none`); otherwise
build the trial list from the first five hits, headed by the nested total
count.  A truthy non-array `hits.hits` raises when sliced or indexed, so
it ends in the error case, like any raised exception. -/
def renderResults (data : Json) : Except String (Option String) := do
  let h1 ← Json.getE data "hits" (Json.obj [])
  let trialsJ ← Json.getE h1 "hits" (Json.arr [])
  if Json.truthy trialsJ then
    match trialsJ with
    | Json.arr trials => do
      let h2 ← Json.getE data "hits" (Json.obj [])
      let t1 ← Json.getE h2 "total" (Json.obj [])
      let numTrials ← Json.getE t1 "value" (Json.num 0)
      let body ← List.foldlM renderStep
        ("### Found " ++ Json.display numTrials ++ " studies. Here are some highlights:\n")
        (List.take 5 trials)
      pure (some body)
    | _ => Except.error "TypeError: hits is not a list"
  else
    pure none

/-- The message of the `json.JSONDecodeError` handler (line 205). -/
def parseErrorMsg : String :=
  "The assistant's response could not be parsed as JSON. Please refine your query."

/-- The follow-up question appended after a successful trial list (line 194). -/
def followUpMsg : String :=
  "Would you like to refine the search further, such as by location, phase, or a specific condition?"

/-- One main chat turn (lines 142-208), from the point where the user
prompt is read and the extractor oracle has answered with the raw text
`raw`, whose `json.loads` outcome is `parsed`; `api` is the reply the
search endpoint gives if the turn posts to it.  Returns the new session
state and the turn's events. -/
def runMainTurn (st : AgentState) (prompt raw : String)
    (parsed : Except String (List (String × Json))) (api : ApiResponse) :
    AgentState × List Event :=
  let msgs := st.messages ++ [⟨"user", prompt⟩, ⟨"assistant", raw⟩]
  match parsed with
  | Except.error _ =>
    ({ messages := msgs, params := st.params },
     [Event.extractorRequest, Event.errorShown parseErrorMsg])
  | Except.ok extracted =>
    let newParams := dictUpdate st.params (clean_params extracted)
    if api.status == 200 then
      match renderResults api.body with
      | Except.ok (some trialList) =>
        ({ messages := msgs ++ [⟨"assistant", trialList⟩, ⟨"assistant", followUpMsg⟩],
           params := newParams },
         [Event.extractorRequest, Event.searchRequest newParams,
          Event.chatShown trialList, Event.chatShown followUpMsg])
      | Except.ok none =>
        ({ messages := msgs, params := newParams },
         [Event.extractorRequest, Event.searchRequest newParams,
          Event.warningShown "No studies found for the given query."])
      | Except.error e =>
        ({ messages := msgs, params := newParams },
         [Event.extractorRequest, Event.searchRequest newParams,
          Event.errorShown ("Error processing your request: " ++ e)])
    else
      ({ messages := msgs, params := newParams },
       [Event.extractorRequest, Event.searchRequest newParams,
        Event.errorShown ("API Error: " ++ toString api.status ++ " - " ++ api.text)])

/-- Function `handle_refined_query` (lines 89-134): re-invokes the
extractor oracle on the transcript, parses its answer, merges, logs the
merged params, posts the search, renders; every exception (a parse
failure included) lands in the single `except` of line 133. -/
def handleRefinedQuery (st : AgentState)
    (parsed : Except String (List (String × Json))) (api : ApiResponse) :
    AgentState × List Event :=
  match parsed with
  | Except.error e =>
    (st, [Event.extractorRequest,
          Event.errorShown ("Error processing the refined query: " ++ e)])
  | Except.ok extracted =>
    let newParams := dictUpdate st.params (clean_params extracted)
    if api.status == 200 then
      match renderResults api.body with
      | Except.ok (some trialList) =>
        ({ messages := st.messages ++ [⟨"assistant", trialList⟩], params := newParams },
         [Event.extractorRequest, Event.logShown newParams,
          Event.searchRequest newParams, Event.chatShown trialList])
      | Except.ok none =>
        ({ st with params := newParams },
         [Event.extractorRequest, Event.logShown newParams,
          Event.searchRequest newParams,
          Event.warningShown "No studies found for the refined query."])
      | Except.error e =>
        ({ st with params := newParams },
         [Event.extractorRequest, Event.logShown newParams,
          Event.searchRequest newParams,
          Event.errorShown ("Error processing the refined query: " ++ e)])
    else
      ({ st with params := newParams },
       [Event.extractorRequest, Event.logShown newParams,
        Event.searchRequest newParams,
        Event.errorShown ("API Error: " ++ toString api.status ++ " - " ++ api.text)])

/-- A well-formed search body: `hits.hits` a list, `hits.total.value` the
reported total, as the spec's result-truncation scenario describes. -/
def mkBody (hs : List Json) (total : Json) : Json :=
  Json.obj [("hits", Json.obj [("hits", Json.arr hs), ("total", Json.obj [("value", total)])])]

/-- Concatenation of the rendered lines, in order. -/
def concatAll : List String → String
  | [] => ""
  | s :: ss => s ++ concatAll ss

/-- Rendering of a whole hit list: the lines of `renderTrial` in order, or
the first raised error. -/
def renderAll : List Json → Except String (List String)
  | [] => Except.ok []
  | t :: ts =>
    match renderTrial t with
    | Except.error e => Except.error e
    | Except.ok line =>
      match renderAll ts with
      | Except.error e => Except.error e
      | Except.ok rest => Except.ok (line :: rest)

/-- A sample hit used to evaluate the truncation claim: `_source` carries
only the two mandatory fields. -/
def sampleHit : Json :=
  Json.obj [("_source", Json.obj [("brief_title", Json.str "T"),
    ("overall_status", Json.str "Recruiting")])]

/-- The rendering of `sampleHit`: optional fields fall back to "N/A". -/
def sampleLine : String :=
  "**T**\nStatus: Recruiting, Phase: N/A, Sponsor: N/A\n\n"

/- Association-list lemmas about the dict operations. -/

@[simp] theorem keys_nil : keys [] = [] := rfl

@[simp] theorem keys_cons (p : String × Json) (ps : List (String × Json)) :
    keys (p :: ps) = p.1 :: keys ps := rfl

theorem keys_clean_params (c : List (String × Json)) : keys (clean_params c) = keys c := by
  simp [keys, clean_params]

theorem dictGet_cons (p : String × Json) (ps : List (String × Json)) (k : String) :
    dictGet (p :: ps) k = if p.1 = k then some p.2 else dictGet ps k := by
  by_cases h : p.1 = k <;> simp [dictGet, List.find?, h]

theorem mem_keys_dictSet (d : List (String × Json)) (k k' : String) (v : Json) :
    k' ∈ keys (dictSet d k v) ↔ k' ∈ keys d ∨ k' = k := by
  induction d with
  | nil => simp [dictSet]
  | cons p ps ih =>
    by_cases h : p.1 = k
    · simp [dictSet, h]
      tauto
    · simp [dictSet, h, ih]
      tauto

theorem mem_keys_dictUpdate (d c : List (String × Json)) (k : String) :
    k ∈ keys (dictUpdate d c) ↔ k ∈ keys d ∨ k ∈ keys c := by
  induction c generalizing d with
  | nil => simp [dictUpdate]
  | cons p ps ih =>
    have h1 : dictUpdate d (p :: ps) = dictUpdate (dictSet d p.1 p.2) ps := rfl
    rw [h1, ih, mem_keys_dictSet]
    simp
    tauto

theorem dictGet_dictSet (d : List (String × Json)) (k k' : String) (v : Json) :
    dictGet (dictSet d k v) k' = if k' = k then some v else dictGet d k' := by
  induction d with
  | nil =>
    by_cases h : k' = k
    · simp [dictSet, dictGet_cons, h]
    · simp [dictSet, dictGet_cons, dictGet, h, Ne.symm h]
  | cons p ps ih =>
    by_cases h : p.1 = k
    · have hset : dictSet (p :: ps) k v = (k, v) :: ps := by simp [dictSet, h]
      rw [hset, dictGet_cons, dictGet_cons]
      by_cases h' : k' = k
      · simp [h', h]
      · simp [h, h', Ne.symm h']
    · have hset : dictSet (p :: ps) k v = p :: dictSet ps k v := by simp [dictSet, h]
      rw [hset, dictGet_cons, dictGet_cons, ih]
      by_cases h2 : p.1 = k'
      · have hne : ¬k' = k := fun he => h (h2.trans he)
        simp [h2, hne]
      · simp [h2]

theorem dictGet_dictUpdate_of_not_mem (d c : List (String × Json)) (k : String)
    (h : k ∉ keys c) : dictGet (dictUpdate d c) k = dictGet d k := by
  induction c generalizing d with
  | nil => rfl
  | cons p ps ih =>
    have h1 : dictUpdate d (p :: ps) = dictUpdate (dictSet d p.1 p.2) ps := rfl
    have hk : k ∉ keys ps := fun hm => h (by simp [hm])
    have hne : k ≠ p.1 := fun he => h (by simp [he])
    rw [h1, ih _ hk, dictGet_dictSet]
    simp [hne]

theorem dictSet_dictSet (d : List (String × Json)) (k : String) (v v' : Json) :
    dictSet (dictSet d k v') k v = dictSet d k v := by
  induction d with
  | nil => simp [dictSet]
  | cons p ps ih =>
    by_cases h : p.1 = k
    · simp [dictSet, h]
    · simp [dictSet, h, ih]

theorem dictSet_comm (d : List (String × Json)) (k k' : String) (v v' : Json)
    (hne : k ≠ k') (hk : k ∈ keys d) :
    dictSet (dictSet d k' v') k v = dictSet (dictSet d k v) k' v' := by
  induction d with
  | nil => simp at hk
  | cons p ps ih =>
    by_cases h1 : p.1 = k
    · have h2 : ¬p.1 = k' := fun he => hne (h1.symm.trans he)
      simp [dictSet, h1, h2, hne, hne.symm]
    · by_cases h2 : p.1 = k'
      · simp [dictSet, h1, h2, hne, hne.symm]
      · have hk' : k ∈ keys ps := by
          rcases (by simpa using hk) with h | h
          · exact absurd h.symm h1
          · exact h
        simp [dictSet, h1, h2, ih hk']

theorem dictSet_dictUpdate (d c : List (String × Json)) (k : String) (v : Json)
    (hk : k ∈ keys d) (hc : k ∉ keys c) :
    dictSet (dictUpdate d c) k v = dictUpdate (dictSet d k v) c := by
  induction c generalizing d with
  | nil => rfl
  | cons p ps ih =>
    have h1 : dictUpdate d (p :: ps) = dictUpdate (dictSet d p.1 p.2) ps := rfl
    have h2 : dictUpdate (dictSet d k v) (p :: ps) =
        dictUpdate (dictSet (dictSet d k v) p.1 p.2) ps := rfl
    have hne : k ≠ p.1 := fun he => hc (by simp [he])
    have hps : k ∉ keys ps := fun hm => hc (by simp [hm])
    have hk' : k ∈ keys (dictSet d p.1 p.2) := by
      rw [mem_keys_dictSet]; exact Or.inl hk
    rw [h1, h2, ih _ hk' hps, dictSet_comm _ _ _ _ _ hne hk]

theorem dictUpdate_idem (d c : List (String × Json)) (h : (keys c).Nodup) :
    dictUpdate (dictUpdate d c) c = dictUpdate d c := by
  induction c generalizing d with
  | nil => rfl
  | cons p ps ih =>
    have hnd : (keys ps).Nodup := (List.nodup_cons.mp (by simpa using h)).2
    have hnm : p.1 ∉ keys ps := (List.nodup_cons.mp (by simpa using h)).1
    have h1 : ∀ e : List (String × Json), dictUpdate e (p :: ps) =
        dictUpdate (dictSet e p.1 p.2) ps := fun e => rfl
    rw [h1, h1]
    have hself : p.1 ∈ keys (dictSet d p.1 p.2) := by
      rw [mem_keys_dictSet]; exact Or.inr rfl
    rw [dictSet_dictUpdate _ _ _ _ hself hnm, dictSet_dictSet]
    exact ih _ hnd

/- Lemmas about the rendering pipeline. -/

theorem ebind_ok {ε α β : Type} (v : α) (f : α → Except ε β) :
    (Except.ok v : Except ε α) >>= f = f v := rfl

theorem ebind_err {ε α β : Type} (e : ε) (f : α → Except ε β) :
    (Except.error e : Except ε α) >>= f = Except.error e := rfl


theorem renderAll_cons (t : Json) (ts : List Json) :
    renderAll (t :: ts) =
      match renderTrial t with
      | Except.error e => Except.error e
      | Except.ok line =>
        match renderAll ts with
        | Except.error e => Except.error e
        | Except.ok rest => Except.ok (line :: rest) := rfl

theorem renderStep_eq (acc : String) (t : Json) :
    renderStep acc t =
      match renderTrial t with
      | Except.error e => Except.error e
      | Except.ok line => Except.ok (acc ++ line) := by
  cases hx : renderTrial t with
  | error e =>
    show renderTrial t >>= (fun line => pure (acc ++ line)) = _
    rw [hx]
    rfl
  | ok line =>
    show renderTrial t >>= (fun line => pure (acc ++ line)) = _
    rw [hx]
    rfl

theorem foldlM_renderStep (xs : List Json) (acc : String) :
    List.foldlM renderStep acc xs =
      match renderAll xs with
      | Except.ok ls => Except.ok (acc ++ concatAll ls)
      | Except.error e => Except.error e := by
  induction xs generalizing acc with
  | nil =>
    simp [List.foldlM, renderAll, concatAll]
    rfl
  | cons t ts ih =>
    have h1 : List.foldlM renderStep acc (t :: ts) =
        renderStep acc t >>= fun b => List.foldlM renderStep b ts := rfl
    rw [h1, renderStep_eq, renderAll_cons]
    cases hx : renderTrial t with
    | error e => rfl
    | ok line =>
      rw [ebind_ok, ih]
      cases hts : renderAll ts with
      | error e => rfl
      | ok rest => simp [concatAll, String.append_assoc]

/-- On a well-formed body with a nonempty hit list, `renderResults` is the
header followed by the fold over the first five hits. -/
theorem renderResults_mkBody (a : Json) (as : List Json) (total : Json) :
    renderResults (mkBody (a :: as) total) =
      match renderAll (List.take 5 (a :: as)) with
      | Except.ok lines => Except.ok (some
          ("### Found " ++ Json.display total ++ " studies. Here are some highlights:\n"
            ++ concatAll lines))
      | Except.error e => Except.error e := by
  have h1 : renderResults (mkBody (a :: as) total) =
      List.foldlM renderStep
        ("### Found " ++ Json.display total ++ " studies. Here are some highlights:\n")
        (List.take 5 (a :: as)) >>= fun body => pure (some body) := rfl
  rw [h1, foldlM_renderStep]
  cases renderAll (List.take 5 (a :: as)) with
  | error e => rfl
  | ok lines => rfl

/- Claim theorems. -/

/-- C1, counterexample: a candidate carrying the undeclared key
"extra_key" leaves that key in the Filter Parameter Set after the merge,
so the merged set does not contain exactly the declared key set. -/
theorem C1_counterexample :
    "extra_key" ∈ keys (mergeParams defaultParams [("extra_key", Json.str "x")]) ∧
    "extra_key" ∉ declaredKeys := by
  constructor
  · decide
  · decide

/-- C1, amended: the merge never loses a key, and when the candidate's
keys all lie in the declared key set (as the extractor prompt demands),
the merged Filter Parameter Set contains exactly the declared keys; a
candidate with extra keys, however, adds them. -/
theorem C1_thm (p c : List (String × Json))
    (hp : keys p = declaredKeys) (hc : keys c ⊆ declaredKeys) :
    ∀ k, k ∈ keys (mergeParams p c) ↔ k ∈ declaredKeys := by
  intro k
  unfold mergeParams
  rw [mem_keys_dictUpdate]
  constructor
  · rintro (h | h)
    · exact hp ▸ h
    · exact hc (by rwa [keys_clean_params] at h)
  · intro h
    exact Or.inl (hp ▸ h)

/-- C1, witness: the amended key-set closure evaluated on the default
params merged with a declared-keys-only candidate. -/
theorem C1_witness :
    keys defaultParams = declaredKeys ∧
    keys [("location", Json.str "boston")] ⊆ declaredKeys ∧
    ("location" ∈ keys (mergeParams defaultParams [("location", Json.str "boston")]) ↔
      "location" ∈ declaredKeys) :=
  ⟨rfl, by decide,
   C1_thm defaultParams [("location", Json.str "boston")] rfl (by decide) "location"⟩

/-- C2, counterexample: with location previously "Boston", a candidate
whose location is the empty string does replace the prior non-null value:
`clean_params` turns "" into null and `update` writes the null through. -/
theorem C2_counterexample :
    dictGet (dictSet defaultParams "location" (Json.str "Boston")) "location" =
      some (Json.str "Boston") ∧
    dictGet (mergeParams (dictSet defaultParams "location" (Json.str "Boston"))
        [("location", Json.str "")]) "location" = some Json.null ∧
    Json.null ≠ Json.str "Boston" :=
  ⟨rfl, rfl, fun h => Json.noConfusion h⟩

/-- C2, amended: a key absent from the candidate keeps its prior value,
and a key present in the candidate is always overwritten with the
normalized candidate value — the null coming from an empty string
included. -/
theorem C2_thm (p c : List (String × Json)) (k : String) (v : Json)
    (h : k ∉ keys c) :
    dictGet (mergeParams p c) k = dictGet p k ∧
    dictGet (mergeParams p [(k, v)]) k = some (cleanValue k v) := by
  constructor
  · unfold mergeParams
    apply dictGet_dictUpdate_of_not_mem
    rwa [keys_clean_params]
  · have h1 : mergeParams p [(k, v)] = dictSet p k (cleanValue k v) := rfl
    rw [h1, dictGet_dictSet]
    simp

/-- C2, witness: the amended merge frame evaluated on the default params:
a candidate without "location" leaves location alone, and a location
candidate writes its normalized value. -/
theorem C2_witness :
    "location" ∉ keys [("gender", Json.str "female")] ∧
    dictGet (mergeParams defaultParams [("gender", Json.str "female")]) "location" =
      dictGet defaultParams "location" ∧
    dictGet (mergeParams defaultParams [("location", Json.str "boston")]) "location" =
      some (cleanValue "location" (Json.str "boston")) :=
  ⟨by decide,
   (C2_thm defaultParams [("gender", Json.str "female")] "location" (Json.str "boston")
     (by decide)).1,
   (C2_thm defaultParams [("gender", Json.str "female")] "location" (Json.str "boston")
     (by decide)).2⟩

/-- C3: the normalizer sends every empty string to null; a non-empty
location string whose lowercasing is "us" or "united states" becomes the
literal "United States", any other non-empty location string is
title-cased; null, numbers, booleans, arrays and objects pass through
unchanged. -/
theorem C3_thm :
    (∀ k, cleanValue k (Json.str "") = Json.null) ∧
    (∀ s, s ≠ "" → (pyLower s = "us" ∨ pyLower s = "united states") →
      cleanValue "location" (Json.str s) = Json.str "United States") ∧
    (∀ s, s ≠ "" → ¬(pyLower s = "us" ∨ pyLower s = "united states") →
      cleanValue "location" (Json.str s) = Json.str (pyTitle s)) ∧
    (∀ k n, cleanValue k (Json.num n) = Json.num n) ∧
    (∀ k b, cleanValue k (Json.bool b) = Json.bool b) ∧
    (∀ k, cleanValue k Json.null = Json.null) ∧
    (∀ k xs, cleanValue k (Json.arr xs) = Json.arr xs) ∧
    (∀ k fs, cleanValue k (Json.obj fs) = Json.obj fs) := by
  refine ⟨fun k => rfl, ?_, ?_, fun k n => rfl, fun k b => rfl, fun k => rfl,
    fun k xs => rfl, fun k fs => rfl⟩
  · intro s hs hlow
    simp [cleanValue, hs, hlow]
  · intro s hs hlow
    simp [cleanValue, hs, hlow]

/-- C3, witness: the normalizer evaluated at the spec's own examples:
normalize(location="us"), normalize(location="United States"),
normalize(location="boston"), normalize("") and a non-string value. -/
theorem C3_witness :
    cleanValue "gender" (Json.str "") = Json.null ∧
    cleanValue "location" (Json.str "us") = Json.str "United States" ∧
    cleanValue "location" (Json.str "United States") = Json.str "United States" ∧
    cleanValue "location" (Json.str "boston") = Json.str (pyTitle "boston") ∧
    cleanValue "phase" (Json.num 2) = Json.num 2 :=
  ⟨C3_thm.1 "gender",
   C3_thm.2.1 "us" (by decide) (by decide),
   C3_thm.2.1 "United States" (by decide) (by decide),
   C3_thm.2.2.1 "boston" (by decide) (by decide),
   C3_thm.2.2.2.1 "phase" 2⟩

/-- C4, counterexample: Python `str.capitalize` lowercases the remainder,
so the non-location string "ABC" becomes "Abc", not the claim's "ABC"
(first character capitalized, rest unchanged). -/
theorem C4_counterexample :
    cleanValue "gender" (Json.str "ABC") = Json.str "Abc" ∧
    cleanValue "gender" (Json.str "ABC") ≠ Json.str "ABC" := by
  refine ⟨rfl, fun h => ?_⟩
  rw [show cleanValue "gender" (Json.str "ABC") = Json.str "Abc" from rfl] at h
  injection h with h2
  exact absurd h2 (by decide)

/-- C4, amended: a non-empty string of a non-location field is rewritten
to Python capitalize form: first character uppercased, every remaining
character lowercased (lowercase is forced on the rest). -/
theorem C4_thm (k s : String) (hk : k ≠ "location") (hs : s ≠ "") :
    cleanValue k (Json.str s) = Json.str (pyCapitalize s) ∧
    ∀ c cs, s.data = c :: cs →
      (pyCapitalize s).data = Char.toUpper c :: cs.map Char.toLower := by
  constructor
  · simp [cleanValue, hs, hk]
  · intro c cs hdata
    unfold pyCapitalize
    rw [hdata]

/-- C4, witness: the amended capitalize behaviour evaluated at the
counterexample input "ABC" under the "gender" key. -/
theorem C4_witness :
    ("gender" : String) ≠ "location" ∧ ("ABC" : String) ≠ "" ∧
    cleanValue "gender" (Json.str "ABC") = Json.str (pyCapitalize "ABC") ∧
    (pyCapitalize "ABC").data = Char.toUpper 'A' :: ['B', 'C'].map Char.toLower :=
  ⟨by decide, by decide,
   (C4_thm "gender" "ABC" (by decide) (by decide)).1,
   (C4_thm "gender" "ABC" (by decide) (by decide)).2 'A' ['B', 'C'] rfl⟩

/-- C8: merging the same candidate twice produces the same Filter
Parameter Set as merging it once, for any candidate whose keys are
distinct (every dict coming out of `json.loads` has distinct keys). -/
theorem C8_thm (p c : List (String × Json)) (h : (keys c).Nodup) :
    mergeParams (mergeParams p c) c = mergeParams p c := by
  unfold mergeParams
  apply dictUpdate_idem
  rwa [keys_clean_params]

/-- C5: when the extractor's raw text fails JSON parsing, the turn shows
exactly the parse-error report and the prior extractor call, issues no
search request, leaves the Filter Parameter Set byte-for-byte unchanged,
and returns a well-formed session state for the next turn. -/
theorem C5_thm (st : AgentState) (prompt raw e : String) (api : ApiResponse) :
    runMainTurn st prompt raw (Except.error e) api =
      ({ messages := st.messages ++ [⟨"user", prompt⟩, ⟨"assistant", raw⟩],
         params := st.params },
       [Event.extractorRequest, Event.errorShown parseErrorMsg]) := rfl

/-- C6: for a success response whose hit list has more than five entries,
the rendered message is the total-count header followed by exactly the
renderings of the first five hits in response order. -/
theorem C6_thm (a : Json) (as : List Json) (total : Json) (lines : List String)
    (h5 : 5 < (a :: as).length)
    (hr : renderAll (List.take 5 (a :: as)) = Except.ok lines) :
    renderResults (mkBody (a :: as) total) =
      Except.ok (some ("### Found " ++ Json.display total ++
        " studies. Here are some highlights:\n" ++ concatAll lines)) ∧
    (List.take 5 (a :: as)).length = 5 := by
  constructor
  · rw [renderResults_mkBody, hr]
  · rw [List.length_take]
    omega


/-- C6, witness: six identical hits with reported total 42: the render
keeps five lines and the header displays 42, not 5. -/
theorem C6_witness :
    5 < (sampleHit :: List.replicate 5 sampleHit).length ∧
    renderAll (List.take 5 (sampleHit :: List.replicate 5 sampleHit)) =
      Except.ok (List.replicate 5 sampleLine) ∧
    renderResults (mkBody (sampleHit :: List.replicate 5 sampleHit) (Json.num 42)) =
      Except.ok (some ("### Found " ++ Json.display (Json.num 42) ++
        " studies. Here are some highlights:\n" ++ concatAll (List.replicate 5 sampleLine))) ∧
    Json.display (Json.num 42) = "42" :=
  ⟨by decide, rfl,
   (C6_thm sampleHit (List.replicate 5 sampleHit) (Json.num 42)
     (List.replicate 5 sampleLine) (by decide) rfl).1,
   rfl⟩

/-- C7: on a non-success search status, the user sees an error carrying
that status code and the merged parameters are kept, both on the main
turn and on the refined-query path. -/
theorem C7_thm (st : AgentState) (prompt raw : String) (c : List (String × Json))
    (api : ApiResponse) (h : api.status ≠ 200) :
    (runMainTurn st prompt raw (Except.ok c) api).1.params =
      dictUpdate st.params (clean_params c) ∧
    Event.errorShown ("API Error: " ++ toString api.status ++ " - " ++ api.text) ∈
      (runMainTurn st prompt raw (Except.ok c) api).2 ∧
    (handleRefinedQuery st (Except.ok c) api).1.params =
      dictUpdate st.params (clean_params c) ∧
    Event.errorShown ("API Error: " ++ toString api.status ++ " - " ++ api.text) ∈
      (handleRefinedQuery st (Except.ok c) api).2 := by
  have hb : (api.status == 200) = false := by
    simp [h]
  unfold runMainTurn handleRefinedQuery
  simp [hb]

/-- C7, witness: a 500 reply evaluated on the default params: the merge
survives and the shown error carries the code 500. -/
theorem C7_witness :
    (500 : Nat) ≠ 200 ∧
    (runMainTurn ⟨[], defaultParams⟩ "q" "r"
        (Except.ok [("search_query", Json.str "cancer")]) ⟨500, Json.null, "boom"⟩).1.params =
      dictUpdate defaultParams (clean_params [("search_query", Json.str "cancer")]) ∧
    Event.errorShown ("API Error: " ++ toString (500 : Nat) ++ " - " ++ "boom") ∈
      (runMainTurn ⟨[], defaultParams⟩ "q" "r"
        (Except.ok [("search_query", Json.str "cancer")]) ⟨500, Json.null, "boom"⟩).2 :=
  ⟨by decide,
   (C7_thm ⟨[], defaultParams⟩ "q" "r" [("search_query", Json.str "cancer")]
     ⟨500, Json.null, "boom"⟩ (by decide)).1,
   (C7_thm ⟨[], defaultParams⟩ "q" "r" [("search_query", Json.str "cancer")]
     ⟨500, Json.null, "boom"⟩ (by decide)).2.1⟩

/-- C8, witness: merge idempotence evaluated on the default params and a
two-key candidate. -/
theorem C8_witness :
    (keys [("location", Json.str "boston"), ("phase", Json.str "2")]).Nodup ∧
    mergeParams (mergeParams defaultParams
        [("location", Json.str "boston"), ("phase", Json.str "2")])
      [("location", Json.str "boston"), ("phase", Json.str "2")] =
    mergeParams defaultParams [("location", Json.str "boston"), ("phase", Json.str "2")] :=
  ⟨by decide,
   C8_thm defaultParams [("location", Json.str "boston"), ("phase", Json.str "2")] (by decide)⟩

/-- Every successful run of the refined-query handler opens with the
extractor call, the parameter log and the search request, whatever the
endpoint then answers. -/
theorem handleRefined_events_ok (st : AgentState) (c : List (String × Json))
    (api : ApiResponse) :
    ∃ tl, (handleRefinedQuery st (Except.ok c) api).2 =
      Event.extractorRequest ::
      Event.logShown (dictUpdate st.params (clean_params c)) ::
      Event.searchRequest (dictUpdate st.params (clean_params c)) :: tl := by
  unfold handleRefinedQuery
  cases hs : (api.status == 200) with
  | false =>
    simp only [hs]
    exact ⟨_, rfl⟩
  | true =>
    simp only [hs]
    cases hr : renderResults api.body with
    | error e => exact ⟨_, rfl⟩
    | ok o =>
      cases o with
      | none => exact ⟨_, rfl⟩
      | some s => exact ⟨_, rfl⟩

/-- C9, counterexample: a concrete refined-query turn (on the default
session, with an extractor answer of the empty object and a 500 reply)
does invoke the extractor oracle, so a refinement is not a search-only
re-run. -/
theorem C9_counterexample :
    Event.extractorRequest ∈
      (handleRefinedQuery ⟨[], defaultParams⟩ (Except.ok []) ⟨500, Json.null, "err"⟩).2 := by
  have h : (handleRefinedQuery ⟨[], defaultParams⟩ (Except.ok [])
      ⟨500, Json.null, "err"⟩).2 =
      [Event.extractorRequest, Event.logShown defaultParams,
       Event.searchRequest defaultParams,
       Event.errorShown ("API Error: 500 - err")] := rfl
  rw [h]
  exact List.mem_cons_self _ _

/-- C9, amended: a refinement turn re-invokes the extractor oracle on the
transcript and then re-runs the search with the freshly merged Filter
Parameter Set; even a failing refinement has invoked the oracle. -/
theorem C9_thm (st : AgentState) (c : List (String × Json)) (api : ApiResponse) :
    Event.extractorRequest ∈ (handleRefinedQuery st (Except.ok c) api).2 ∧
    Event.searchRequest (dictUpdate st.params (clean_params c)) ∈
      (handleRefinedQuery st (Except.ok c) api).2 ∧
    ∀ e, Event.extractorRequest ∈ (handleRefinedQuery st (Except.error e) api).2 := by
  obtain ⟨tl, htl⟩ := handleRefined_events_ok st c api
  refine ⟨?_, ?_, fun e => ?_⟩
  · rw [htl]
    exact List.mem_cons_self _ _
  · rw [htl]
    simp
  · exact List.mem_cons_self _ _

/-- Unfolding of Python dict indexing on an object value. -/
theorem index_obj (fs : List (String × Json)) (k : String) :
    Json.index (Json.obj fs) k =
      match fs.find? (fun p => p.1 = k) with
      | some p => Except.ok p.2
      | none => Except.error ("KeyError: " ++ k) := rfl

/-- Unfolding of `renderTrial` on a hit of the shape the endpoint sends:
the `_source` lookup succeeds and hands over to the field rendering. -/
theorem renderTrial_obj (fs : List (String × Json)) :
    renderTrial (Json.obj [("_source", Json.obj fs)]) = renderSource (Json.obj fs) := rfl

/-- C10: on a 200 response, a hit whose `_source` lacks `brief_title` or
`overall_status` makes the direct indexing raise; the raised error lands
in the turn's generic handler, which shows it and appends neither a trial
list nor a follow-up; one failing hit among the first five aborts the
whole render; only `phase` and the sponsor agency fall back to "N/A". -/
theorem C10_thm (st : AgentState) (prompt raw : String) (c : List (String × Json)) :
    (∀ fs, fs.find? (fun p => p.1 = "brief_title") = none →
      renderTrial (Json.obj [("_source", Json.obj fs)]) =
        Except.error ("KeyError: " ++ "brief_title")) ∧
    (∀ fs title, fs.find? (fun p => p.1 = "overall_status") = none →
      fs.find? (fun p => p.1 = "brief_title") = some ("brief_title", Json.str title) →
      renderTrial (Json.obj [("_source", Json.obj fs)]) =
        Except.error ("KeyError: " ++ "overall_status")) ∧
    (∀ body text e, renderResults body = Except.error e →
      runMainTurn st prompt raw (Except.ok c) ⟨200, body, text⟩ =
        ({ messages := st.messages ++ [⟨"user", prompt⟩, ⟨"assistant", raw⟩],
           params := dictUpdate st.params (clean_params c) },
         [Event.extractorRequest,
          Event.searchRequest (dictUpdate st.params (clean_params c)),
          Event.errorShown ("Error processing your request: " ++ e)])) ∧
    (∀ a as total m, renderAll (List.take 5 (a :: as)) = Except.error m →
      renderResults (mkBody (a :: as) total) = Except.error m) ∧
    (∀ title status, renderTrial (Json.obj [("_source",
        Json.obj [("brief_title", Json.str title), ("overall_status", Json.str status)])]) =
      Except.ok ("**" ++ title ++ "**\n" ++ "Status: " ++ status ++
        ", Phase: " ++ "N/A" ++ ", Sponsor: " ++ "N/A" ++ "\n\n")) := by
  refine ⟨?_, ?_, ?_, ?_, fun title status => rfl⟩
  · intro fs h
    have h1 : Json.index (Json.obj fs) "brief_title" =
        Except.error ("KeyError: " ++ "brief_title") := by
      rw [index_obj, h]
    rw [renderTrial_obj]
    unfold renderSource
    rw [h1]
  · intro fs title hos hbt
    have h1 : Json.index (Json.obj fs) "brief_title" = Except.ok (Json.str title) := by
      rw [index_obj, hbt]
    have h2 : Json.index (Json.obj fs) "overall_status" =
        Except.error ("KeyError: " ++ "overall_status") := by
      rw [index_obj, hos]
    rw [renderTrial_obj]
    unfold renderSource
    rw [h1, h2]
  · intro body text e h
    simp only [runMainTurn]
    rw [h]
    rfl
  · intro a as total m hm
    rw [renderResults_mkBody, hm]

/-- C10, witness: the failure modes evaluated on concrete hits: a hit
missing `brief_title`, a hit missing `overall_status`, a body whose
render raises (and the resulting turn outcome on the default session),
a one-bad-hit response, and the defensive "N/A" fallbacks. -/
theorem C10_witness :
    renderTrial (Json.obj [("_source", Json.obj [("overall_status", Json.str "S")])]) =
      Except.error ("KeyError: " ++ "brief_title") ∧
    renderTrial (Json.obj [("_source", Json.obj [("brief_title", Json.str "T")])]) =
      Except.error ("KeyError: " ++ "overall_status") ∧
    runMainTurn ⟨[], defaultParams⟩ "q" "r" (Except.ok [])
        ⟨200, mkBody [Json.obj [("_source", Json.obj [("overall_status", Json.str "S")])]]
          (Json.num 1), "t"⟩ =
      ({ messages := [⟨"user", "q"⟩, ⟨"assistant", "r"⟩], params := defaultParams },
       [Event.extractorRequest, Event.searchRequest defaultParams,
        Event.errorShown ("Error processing your request: " ++ ("KeyError: " ++ "brief_title"))]) ∧
    renderTrial (Json.obj [("_source", Json.obj [("brief_title", Json.str "T"),
        ("overall_status", Json.str "S")])]) =
      Except.ok ("**" ++ "T" ++ "**\n" ++ "Status: " ++ "S" ++
        ", Phase: " ++ "N/A" ++ ", Sponsor: " ++ "N/A" ++ "\n\n") :=
  ⟨(C10_thm ⟨[], defaultParams⟩ "q" "r" []).1 [("overall_status", Json.str "S")] rfl,
   (C10_thm ⟨[], defaultParams⟩ "q" "r" []).2.1 [("brief_title", Json.str "T")] "T" rfl rfl,
   (C10_thm ⟨[], defaultParams⟩ "q" "r" []).2.2.1
     (mkBody [Json.obj [("_source", Json.obj [("overall_status", Json.str "S")])]] (Json.num 1))
     "t" ("KeyError: " ++ "brief_title") rfl,
   (C10_thm ⟨[], defaultParams⟩ "q" "r" []).2.2.2.2 "T" "S"⟩

end Exmplr
